import Mathlib

/-!
Verification of the touch-gesture and swipe-physics core of the
ionic-angular-patched repository: the sliding-item engine
(ItemSliding in components/item/item-sliding), the scroll/momentum
engine (ScrollView in util/scroll-view) and the pan-gesture
controller (PanGesture in gestures/drag-gesture).

Numbers are modelled as rationals.  Where JavaScript arithmetic can
leave the finite range (division by zero), a dedicated JSNum type with
infinities and a not-a-number value is used.  Real time is modelled by
passing the current timestamp explicitly; a pending timeout is an
optional absolute deadline.
-/

/-! ## Sliding-item engine (item-sliding) -/

/-- SWIPE_MARGIN constant of item-sliding. -/
def SWIPE_MARGIN : ℚ := 30

/-- ELASTIC_FACTOR constant of item-sliding (0.55). -/
def ELASTIC_FACTOR : ℚ := 55 / 100

/-- State of an ItemSliding component.  The state field is the bitmask
used by the source: Disabled = 2, Enabled = 4, Right = 8, Left = 16,
SwipeRight = 32, SwipeLeft = 64.  The sides field encodes which option
panels exist: Left = 1, Right = 2, Both = 3.  The timer field is the
absolute deadline of the pending auto-disable timeout, if any. -/
structure ItemSliding where
  openAmount : ℚ := 0
  startX : ℚ := 0
  optsWidthRightSide : ℚ := 0
  optsWidthLeftSide : ℚ := 0
  timer : Option ℚ := none
  optsDirty : Bool := true
  state : Nat := 2
  sides : Nat := 0
deriving Repr, DecidableEq

/-- ItemSliding._setState: records the new state bitmask (the CSS class
toggling it also performs has no further effect on the model). -/
def ItemSliding.setState (s : ItemSliding) (st : Nat) : ItemSliding :=
  if st = s.state then s else { s with state := st }

/-- ItemSliding._setOpenAmount(openAmount, isFinal): clears any pending
timer, stores the open amount, updates the discrete state bits when not
final, and, when the item is fully closed (openAmount = 0), arms the
600 ms auto-disable timer.  The current time is passed explicitly. -/
def ItemSliding.setOpenAmount (s : ItemSliding) (now : ℚ) (openAmount : ℚ)
    (isFinal : Bool) : ItemSliding :=
  let s1 : ItemSliding := { s with timer := none, openAmount := openAmount }
  let s2 :=
    if isFinal then s1
    else if openAmount > 0 then
      s1.setState (if openAmount ≥ s1.optsWidthRightSide + SWIPE_MARGIN
        then 8 + 32 else 8)
    else if openAmount < 0 then
      s1.setState (if openAmount ≤ -s1.optsWidthLeftSide - SWIPE_MARGIN
        then 16 + 64 else 16)
    else s1
  if openAmount = 0 then { s2 with timer := some (now + 600) } else s2

/-- ItemSliding.startSliding(startX): cancels any pending timer; if the
item is fully closed, marks the option widths dirty and enables the
item; records the start coordinate shifted by the current open
amount. -/
def ItemSliding.startSliding (s : ItemSliding) (startX : ℚ) : ItemSliding :=
  let s1 : ItemSliding := { s with timer := none }
  let s2 := if s1.openAmount = 0
    then ItemSliding.setState { s1 with optsDirty := true } 4
    else s1
  { s2 with startX := startX + s2.openAmount }

/-- ItemSliding.moveSliding(x): when the option widths are stale the
source only schedules an asynchronous width read (calculateOptsWidth)
and returns undefined, modelled as none with the state unchanged.
Otherwise it computes the raw open amount, clamps it according to which
side panels exist, applies the elastic factor beyond the panel widths,
stores the result and returns it. -/
def ItemSliding.moveSliding (s : ItemSliding) (now x : ℚ) :
    ItemSliding × Option ℚ :=
  if s.optsDirty then (s, none)
  else
    let openAmount0 := s.startX - x
    let openAmount1 :=
      if s.sides = 2 then max 0 openAmount0
      else if s.sides = 1 then min 0 openAmount0
      else openAmount0
    let openAmount2 :=
      if openAmount1 > s.optsWidthRightSide then
        s.optsWidthRightSide
          + (openAmount1 - s.optsWidthRightSide) * ELASTIC_FACTOR
      else if openAmount1 < -s.optsWidthLeftSide then
        -s.optsWidthLeftSide
          + (openAmount1 + s.optsWidthLeftSide) * ELASTIC_FACTOR
      else openAmount1
    (s.setOpenAmount now openAmount2 false, some openAmount2)

/-- Modelled from the spec: the policy function swipeShouldReset lives
in util/util, which is not among the provided sources.  Per the spec it
combines the three signals into a close-versus-open decision: a drag
that is not moving fast closes exactly when the offset is in the close
zone, and a fast drag in the reset direction also closes. -/
def swipeShouldReset (isResetDirection isMovingFast isOnCloseZone : Bool) :
    Bool :=
  (!isMovingFast && isOnCloseZone) || (isResetDirection && isMovingFast)

/-- ItemSliding.endSliding(velocity): picks the candidate resting point
from the sign of the open amount, computes the three policy signals,
resets the resting point to zero when the policy says so, stores it as
final and returns it. -/
def ItemSliding.endSliding (s : ItemSliding) (now velocity : ℚ) :
    ItemSliding × ℚ :=
  let restingPoint0 := if s.openAmount > 0
    then s.optsWidthRightSide
    else -s.optsWidthLeftSide
  let isResetDirection := decide (s.openAmount > 0) == !decide (velocity < 0)
  let isMovingFast := decide (|velocity| > 3 / 10)
  let isOnCloseZone := decide (|s.openAmount| < |restingPoint0 / 2|)
  let restingPoint :=
    if swipeShouldReset isResetDirection isMovingFast isOnCloseZone
    then 0 else restingPoint0
  (s.setOpenAmount now restingPoint true, restingPoint)

/-- The auto-disable timeout armed by _setOpenAmount: when it is still
pending and its deadline has been reached, its callback sets the state
to Disabled (2) and clears the handle; otherwise nothing happens. -/
def ItemSliding.timerFire (s : ItemSliding) (now : ℚ) : ItemSliding :=
  match s.timer with
  | some d => if d ≤ now then { s.setState 2 with timer := none } else s
  | none => s

@[simp]
theorem ItemSliding.setState_openAmount (s : ItemSliding) (st : Nat) :
    (s.setState st).openAmount = s.openAmount := by
  unfold ItemSliding.setState; split <;> rfl

@[simp]
theorem ItemSliding.setState_timer (s : ItemSliding) (st : Nat) :
    (s.setState st).timer = s.timer := by
  unfold ItemSliding.setState; split <;> rfl

@[simp]
theorem ItemSliding.setState_state (s : ItemSliding) (st : Nat) :
    (s.setState st).state = st := by
  unfold ItemSliding.setState
  split
  · simp_all
  · rfl

/-- Lemma: setOpenAmount stores exactly the given open amount. -/
@[simp]
theorem ItemSliding.setOpenAmount_openAmount (s : ItemSliding) (now a : ℚ)
    (f : Bool) : (s.setOpenAmount now a f).openAmount = a := by
  unfold ItemSliding.setOpenAmount
  dsimp only
  repeat' split
  all_goals simp

/-- Lemma: setOpenAmount arms the 600 ms auto-disable timer exactly when
the stored open amount is zero, cancelling any previously pending
timer. -/
@[simp]
theorem ItemSliding.setOpenAmount_timer (s : ItemSliding) (now a : ℚ)
    (f : Bool) :
    (s.setOpenAmount now a f).timer
      = (if a = 0 then some (now + 600) else none) := by
  unfold ItemSliding.setOpenAmount
  dsimp only
  repeat' split
  all_goals simp

/-! ## Claim C1: moveSliding clamping and elastic resistance -/

/-- Spec-side clamping, following the claim wording: clamp to at least
zero when only a Right panel exists (sides = 2), to at most zero when
only a Left panel exists (sides = 1), unclamped when Both. -/
def specClampedAmount (sides : Nat) (a : ℚ) : ℚ :=
  if sides = 2 then max 0 a else if sides = 1 then min 0 a else a

/-- Spec-side elastic resistance, following the claim wording: for an
excess d beyond the corresponding panel width the open amount becomes
panelWidth + d * 0.55, sign-symmetric on the left side. -/
def specElasticAmount (leftW rightW a : ℚ) : ℚ :=
  if a > rightW then rightW + (a - rightW) * (55 / 100)
  else if a < -leftW then -(leftW + (-a - leftW) * (55 / 100))
  else a

/-- Claim C1: for a move sample x with non-stale panel widths,
moveSliding computes openAmount = startX - x, clamps it according to
which panels exist (at least 0 for Right only, at most 0 for Left only,
unclamped for Both) and applies the 0.55 elastic factor to any excess
beyond the corresponding panel width; the resulting amount is both
returned and stored. -/
theorem moveSliding_spec (s : ItemSliding) (now x : ℚ)
    (h : s.optsDirty = false) :
    (s.moveSliding now x).2
      = some (specElasticAmount s.optsWidthLeftSide s.optsWidthRightSide
          (specClampedAmount s.sides (s.startX - x)))
    ∧ (s.moveSliding now x).1.openAmount
      = specElasticAmount s.optsWidthLeftSide s.optsWidthRightSide
          (specClampedAmount s.sides (s.startX - x)) := by
  unfold ItemSliding.moveSliding specElasticAmount specClampedAmount
    ELASTIC_FACTOR
  rw [if_neg (by simp [h])]
  dsimp only
  constructor
  · congr 1
    repeat' split
    all_goals ring
  · rw [ItemSliding.setOpenAmount_openAmount]
    repeat' split
    all_goals ring

/-- Concrete input for the sliding-item claims: right panel of width
100, both panels present handled elsewhere; here sides = Right only. -/
def sampleSliding : ItemSliding :=
  { openAmount := 0, startX := 200, optsWidthRightSide := 100,
    optsWidthLeftSide := 0, timer := none, optsDirty := false,
    state := 4, sides := 2 }

/-- Witness for C1 at a concrete input: a drag 70 px past the 100 px
right panel stores 100 + 70 * 0.55 = 138.5. -/
theorem moveSliding_spec_witness :
    (sampleSliding.moveSliding 0 30).2
      = some (specElasticAmount sampleSliding.optsWidthLeftSide
          sampleSliding.optsWidthRightSide
          (specClampedAmount sampleSliding.sides (sampleSliding.startX - 30)))
    ∧ (sampleSliding.moveSliding 0 30).1.openAmount
      = specElasticAmount sampleSliding.optsWidthLeftSide
          sampleSliding.optsWidthRightSide
          (specClampedAmount sampleSliding.sides
            (sampleSliding.startX - 30)) :=
  moveSliding_spec sampleSliding 0 30 rfl

/-! ## Claim C2: endSliding resting-point decision -/

/-- Claim C2: endSliding decides the resting point from the three
signals isResetDirection, moving-fast and close-zone; with velocity 0
and openAmount = 0.6 * panelWidth it settles fully open (resting point
= panelWidth), and with velocity 0 and openAmount = 0.3 * panelWidth it
settles fully closed (resting point = 0); the resting point is both
returned and stored. -/
theorem endSliding_settle (s : ItemSliding) (w now : ℚ) (hw : 0 < w)
    (hr : s.optsWidthRightSide = w) :
    (s.openAmount = w * (6 / 10) →
      (s.endSliding now 0).2 = w
      ∧ (s.endSliding now 0).1.openAmount = w)
    ∧ (s.openAmount = w * (3 / 10) →
      (s.endSliding now 0).2 = 0
      ∧ (s.endSliding now 0).1.openAmount = 0) := by
  unfold ItemSliding.endSliding swipeShouldReset
  constructor
  · intro h
    have h1 : s.openAmount > 0 := by rw [h]; positivity
    have h2 : ¬ (|s.openAmount| < |w / 2|) := by
      rw [h, abs_of_pos (by positivity), abs_of_pos (by positivity)]
      intro hlt
      linarith
    have h3 : ¬ (|(0 : ℚ)| > 3 / 10) := by norm_num
    have h4 : ¬ ((3 : ℚ) / 10 < 0) := by norm_num
    simp [h1, h2, h3, h4, hr]
  · intro h
    have h1 : s.openAmount > 0 := by rw [h]; positivity
    have h2 : ¬ (|w / 2| ≤ |s.openAmount|) := by
      rw [h, abs_of_pos (by positivity), abs_of_pos (by positivity)]
      intro hle
      linarith
    have h3 : ¬ (|(0 : ℚ)| > 3 / 10) := by norm_num
    have h5 : (0 : ℚ) ≤ 3 / 10 := by norm_num
    simp [h1, h2, h3, h5, hr]

/-- Witness for C2 at a concrete input: with a 100 px right panel, an
open amount of 60 settles at 100 and an open amount of 30 settles at
0. -/
theorem endSliding_settle_witness :
    (({ sampleSliding with openAmount := 60 } : ItemSliding).openAmount
        = 100 * (6 / 10) →
      (({ sampleSliding with openAmount := 60 }
          : ItemSliding).endSliding 0 0).2 = 100
      ∧ (({ sampleSliding with openAmount := 60 }
          : ItemSliding).endSliding 0 0).1.openAmount = 100)
    ∧ (({ sampleSliding with openAmount := 60 } : ItemSliding).openAmount
        = 100 * (3 / 10) →
      (({ sampleSliding with openAmount := 60 }
          : ItemSliding).endSliding 0 0).2 = 0
      ∧ (({ sampleSliding with openAmount := 60 }
          : ItemSliding).endSliding 0 0).1.openAmount = 0) :=
  endSliding_settle { sampleSliding with openAmount := 60 } 100 0
    (by norm_num) rfl

/-! ## Claim C7: 600 ms auto-disable timer -/

@[simp]
theorem ItemSliding.startSliding_timer (s : ItemSliding) (x : ℚ) :
    (s.startSliding x).timer = none := by
  unfold ItemSliding.startSliding
  dsimp only
  split <;> simp

/-- Claim C7: settling fully closed arms a 600 ms timer; its expiry sets
the state to Disabled (2); a new interaction (startSliding) or a new
open-amount update cancels the pending timer, so firing at the old
deadline no longer disables: after startSliding the timer is gone and
the fire is a no-op, after an update to a non-zero amount likewise, and
after an update to zero the replacement timer only fires 600 ms after
the new update. -/
theorem autoDisable_timer (s : ItemSliding) (now now2 x d t2 a : ℚ)
    (final f2 : Bool) :
    ((s.setOpenAmount now 0 final).timer = some (now + 600))
    ∧ (s.timer = some d → d ≤ t2 →
        (s.timerFire t2).state = 2 ∧ (s.timerFire t2).timer = none)
    ∧ ((s.startSliding x).timer = none)
    ∧ ((s.startSliding x).timerFire t2 = s.startSliding x)
    ∧ (a ≠ 0 →
        (s.setOpenAmount now2 a f2).timerFire t2 = s.setOpenAmount now2 a f2)
    ∧ (a = 0 → t2 < now2 + 600 →
        (s.setOpenAmount now2 a f2).timerFire t2
          = s.setOpenAmount now2 a f2) := by
  refine ⟨by simp, ?_, by simp, ?_, ?_, ?_⟩
  · intro h hd
    unfold ItemSliding.timerFire
    rw [h]
    simp [hd]
  · unfold ItemSliding.timerFire
    rw [ItemSliding.startSliding_timer]
  · intro ha
    unfold ItemSliding.timerFire
    rw [ItemSliding.setOpenAmount_timer, if_neg ha]
  · intro ha ht
    unfold ItemSliding.timerFire
    rw [ItemSliding.setOpenAmount_timer, if_pos ha]
    simp [not_le.mpr ht]

/-- Concrete sliding item with a pending auto-disable deadline at
t = 1000. -/
def sampleTimerSliding : ItemSliding :=
  { sampleSliding with timer := some 1000 }

/-- Witness for C7 at concrete inputs: the deadline 1000 fired at 1600
disables; an interaction or update at any earlier point cancels the
pending timer so firing does nothing. -/
theorem autoDisable_timer_witness :
    ((sampleTimerSliding.setOpenAmount 0 0 true).timer = some (0 + 600))
    ∧ ((sampleTimerSliding.timerFire 1600).state = 2
        ∧ (sampleTimerSliding.timerFire 1600).timer = none)
    ∧ ((sampleTimerSliding.startSliding 7).timer = none)
    ∧ ((sampleTimerSliding.startSliding 7).timerFire 1600
        = sampleTimerSliding.startSliding 7)
    ∧ ((sampleTimerSliding.setOpenAmount 200 5 false).timerFire 1600
        = sampleTimerSliding.setOpenAmount 200 5 false)
    ∧ ((sampleTimerSliding.setOpenAmount 599 0 true).timerFire 1000
        = sampleTimerSliding.setOpenAmount 599 0 true) := by
  have h1 := autoDisable_timer sampleTimerSliding 0 200 7 1000 1600 5 true false
  have h2 := autoDisable_timer sampleTimerSliding 0 599 7 1000 1000 0 true true
  exact ⟨h1.1, h1.2.1 rfl (by norm_num), h1.2.2.1, h1.2.2.2.1,
    h1.2.2.2.2.1 (by norm_num), h2.2.2.2.2.2 rfl (by norm_num)⟩

/-! ## Radio group (radio-group) -/

/-- A registered radio button, as far as RadioGroup._update touches it:
its value, its checked flag and its element id (used for the aria
active-descendant attribute). -/
structure RadioButton (α : Type) where
  value : α
  checked : Bool
  id : Nat
deriving Repr, DecidableEq

/-- A radio group: its current value, its registered buttons in
registration order, and the aria-activedescendant attribute value. -/
structure RadioGroup (α : Type) where
  value : α
  btns : List (RadioButton α)
  activeDescendant : Option Nat
deriving Repr, DecidableEq

/-- The forEach loop body of RadioGroup._update, folded over the button
list: each button is checked exactly when its value matches and no
earlier button was already checked; a button that becomes checked is
set as the active descendant.  The match test isCheckedProperty lives
in util/util (not among the provided sources), so it is taken as a
function parameter icpv, already applied to the group value. -/
def radioUpdateGo {α : Type} (icpv : α → Bool) :
    List (RadioButton α) → Bool → Option Nat →
      List (RadioButton α) × Option Nat
  | [], _, act => ([], act)
  | b :: bs, hasChecked, act =>
    let c := icpv b.value && !hasChecked
    let b1 : RadioButton α := { b with checked := c }
    let act1 := if c then some b1.id else act
    let r := radioUpdateGo icpv bs (hasChecked || c) act1
    (b1 :: r.1, r.2)

/-- RadioGroup._update: runs the loop over all registered buttons with
the hasChecked flag initially false. -/
def RadioGroup.update {α : Type} (icp : α → α → Bool) (g : RadioGroup α) :
    RadioGroup α :=
  let r := radioUpdateGo (icp g.value) g.btns false g.activeDescendant
  { g with btns := r.1, activeDescendant := r.2 }

/-- Unchecking helper used to state the update characterization. -/
def radioUncheck {α : Type} (b : RadioButton α) : RadioButton α :=
  { b with checked := false }

/-- Lemma: once hasChecked is set, the rest of the loop unchecks every
button and leaves the active descendant unchanged. -/
theorem radioUpdateGo_checked {α : Type} (icpv : α → Bool)
    (bs : List (RadioButton α)) (act : Option Nat) :
    radioUpdateGo icpv bs true act = (bs.map radioUncheck, act) := by
  induction bs generalizing act with
  | nil => rfl
  | cons b bs ih =>
    simp [radioUpdateGo, radioUncheck, ih]

/-- Lemma: if every button fails the match test, the loop unchecks every
button and leaves the active descendant unchanged. -/
theorem radioUpdateGo_none {α : Type} (icpv : α → Bool)
    (bs : List (RadioButton α)) (act : Option Nat)
    (h : ∀ b ∈ bs, icpv b.value = false) :
    radioUpdateGo icpv bs false act = (bs.map radioUncheck, act) := by
  induction bs generalizing act with
  | nil => rfl
  | cons b bs ih =>
    have hb : icpv b.value = false := h b (by simp)
    simp [radioUpdateGo, radioUncheck, hb,
      ih act (fun c hc => h c (by simp [hc]))]

/-- Lemma: when the buttons split as pre ++ b :: post with every button
of pre failing the match test and b passing it, the loop checks exactly
b, records b as active descendant, and unchecks everything else. -/
theorem radioUpdateGo_first {α : Type} (icpv : α → Bool)
    (pre post : List (RadioButton α)) (b : RadioButton α) (act : Option Nat)
    (hpre : ∀ a ∈ pre, icpv a.value = false) (hb : icpv b.value = true) :
    radioUpdateGo icpv (pre ++ b :: post) false act
      = (pre.map radioUncheck
          ++ { b with checked := true } :: post.map radioUncheck,
         some b.id) := by
  induction pre generalizing act with
  | nil =>
    simp [radioUpdateGo, hb, radioUpdateGo_checked]
  | cons a pre ih =>
    have ha : icpv a.value = false := hpre a (by simp)
    simp [radioUpdateGo, ha, radioUncheck,
      ih act (fun c hc => hpre c (by simp [hc]))]

/-- Lemma: the loop checks at most one button. -/
theorem radioUpdateGo_countP {α : Type} (icpv : α → Bool)
    (bs : List (RadioButton α)) (act : Option Nat) :
    ((radioUpdateGo icpv bs false act).1.countP (fun b => b.checked)) ≤ 1 := by
  induction bs generalizing act with
  | nil => simp [radioUpdateGo]
  | cons b bs ih =>
    by_cases hb : icpv b.value = true
    · have hz : ∀ (l : List (RadioButton α)),
          ((l.map radioUncheck).countP (fun b => b.checked)) = 0 := by
        intro l
        rw [List.countP_eq_zero]
        intro c hc
        rcases List.mem_map.mp hc with ⟨d, _, hd⟩
        simp [← hd, radioUncheck]
      simp [radioUpdateGo, hb, radioUpdateGo_checked, List.countP_cons, hz]
    · have hb2 : icpv b.value = false := by
        cases h : icpv b.value
        · rfl
        · exact absurd h hb
      simp [radioUpdateGo, hb2, List.countP_cons, ih]

/-! ## Claim C10: at most one checked radio button after _update -/

/-- Claim C10: after RadioGroup._update, at most one registered button
is checked, for every possible match test; when the buttons split as
pre ++ b :: post with b the first matching button in registration
order, exactly b ends up checked, b becomes the active descendant, and
every later button is unchecked. -/
theorem radioGroup_update_single {α : Type} (icp : α → α → Bool)
    (g : RadioGroup α) :
    ((g.update icp).btns.countP (fun b => b.checked) ≤ 1)
    ∧ (∀ pre (b : RadioButton α) post, g.btns = pre ++ b :: post →
        (∀ a ∈ pre, icp g.value a.value = false) →
        icp g.value b.value = true →
        (g.update icp).btns
          = pre.map radioUncheck
            ++ { b with checked := true } :: post.map radioUncheck
        ∧ (g.update icp).activeDescendant = some b.id
        ∧ (∀ c ∈ (g.update icp).btns.drop (pre.length + 1),
            c.checked = false)) := by
  constructor
  · unfold RadioGroup.update
    exact radioUpdateGo_countP (icp g.value) g.btns g.activeDescendant
  · intro pre b post hsplit hpre hb
    have hfirst := radioUpdateGo_first (icp g.value) pre post b
      g.activeDescendant hpre hb
    have hbtns : (g.update icp).btns
        = pre.map radioUncheck
          ++ { b with checked := true } :: post.map radioUncheck := by
      unfold RadioGroup.update
      dsimp only
      rw [hsplit, hfirst]
    have hact : (g.update icp).activeDescendant = some b.id := by
      unfold RadioGroup.update
      dsimp only
      rw [hsplit, hfirst]
    refine ⟨hbtns, hact, ?_⟩
    rw [hbtns]
    have h1 : pre.map radioUncheck
        ++ ({ b with checked := true } : RadioButton α)
          :: post.map radioUncheck
        = (pre.map radioUncheck ++ [{ b with checked := true }])
          ++ post.map radioUncheck := by simp
    have h2 : (pre.map radioUncheck
        ++ [({ b with checked := true } : RadioButton α)]).length
        = pre.length + 1 := by simp
    rw [h1, ← h2, List.drop_left]
    intro c hc
    rcases List.mem_map.mp hc with ⟨d, _, hd⟩
    simp [← hd, radioUncheck]

/-- Concrete radio group whose value matches the first two of its three
buttons. -/
def sampleRadioGroup : RadioGroup Nat :=
  { value := 1,
    btns := [{ value := 1, checked := false, id := 10 },
             { value := 1, checked := true, id := 11 },
             { value := 2, checked := false, id := 12 }],
    activeDescendant := none }

/-- Witness for C10 at a concrete input: with two buttons matching the
group value, only the first ends up checked and active, the later
matching button is unchecked. -/
theorem radioGroup_update_single_witness :
    ((sampleRadioGroup.update (fun a b => a == b)).btns.countP
        (fun b => b.checked) ≤ 1)
    ∧ ((sampleRadioGroup.update (fun a b => a == b)).btns
        = List.map radioUncheck []
          ++ { value := 1, checked := true, id := 10 }
            :: List.map radioUncheck
              [{ value := 1, checked := true, id := 11 },
               { value := 2, checked := false, id := 12 }])
    ∧ ((sampleRadioGroup.update (fun a b => a == b)).activeDescendant
        = some 10)
    ∧ (∀ c ∈ ((sampleRadioGroup.update (fun a b => a == b)).btns.drop
        ((List.length ([] : List (RadioButton Nat))) + 1)),
        c.checked = false) := by
  have h := radioGroup_update_single (fun a b => a == b) sampleRadioGroup
  have h2 := h.2 [] { value := 1, checked := false, id := 10 }
    [{ value := 1, checked := true, id := 11 },
     { value := 2, checked := false, id := 12 }]
    rfl (by simp) (by decide)
  exact ⟨h.1, h2.1, h2.2.1, h2.2.2⟩

/-! ## Scroll view (scroll-view): offsets and synthetic scrolling -/

/-- The parts of a ScrollView that getTop/getLeft/setTop/setLeft touch:
the js mode flag fixed at initialization, the cached internal offsets
_t and _l, the native element scroll offsets, and the transform the js
mode writes to the element style (the translate3d x and y arguments). -/
structure ScrollView where
  js : Bool
  t : ℚ := 0
  l : ℚ := 0
  elScrollTop : ℚ := 0
  elScrollLeft : ℚ := 0
  elTransform : Option (ℚ × ℚ) := none
deriving Repr, DecidableEq

/-- ScrollView.getTop: in js mode returns the cached offset; in native
mode reads the element and refreshes the cache. -/
def ScrollView.getTop (s : ScrollView) : ℚ × ScrollView :=
  if s.js then (s.t, s)
  else (s.elScrollTop, { s with t := s.elScrollTop })

/-- ScrollView.getLeft: in js mode returns 0 without touching the
cache; in native mode reads the element and refreshes the cache. -/
def ScrollView.getLeft (s : ScrollView) : ℚ × ScrollView :=
  if s.js then (0, s)
  else (s.elScrollLeft, { s with l := s.elScrollLeft })

/-- ScrollView.setTop: records the offset; js mode applies a transform,
native mode writes the element scrollTop. -/
def ScrollView.setTop (s : ScrollView) (top : ℚ) : ScrollView :=
  let s1 : ScrollView := { s with t := top }
  if s1.js then { s1 with elTransform := some (-s1.l, -top) }
  else { s1 with elScrollTop := top }

/-- ScrollView.setLeft: records the offset; js mode applies a
transform, native mode writes the element scrollLeft. -/
def ScrollView.setLeft (s : ScrollView) (left : ℚ) : ScrollView :=
  let s1 : ScrollView := { s with l := left }
  if s1.js then { s1 with elTransform := some (-left, -s1.t) }
  else { s1 with elScrollLeft := left }

/-! ## Claim C9: getLeft in js mode always returns 0 -/

/-- Claim C9: in synthetic (js-scroll) mode getLeft always returns 0,
even right after setLeft recorded a non-zero value and applied the
visual transform; in native mode getLeft reads the element offset, so a
non-zero horizontal offset is only readable there. -/
theorem jsMode_getLeft_zero (s : ScrollView) (left : ℚ) :
    (s.js = true →
      (s.getLeft).1 = 0
      ∧ ((s.setLeft left).getLeft).1 = 0
      ∧ (s.setLeft left).l = left
      ∧ (s.setLeft left).elTransform = some (-left, -s.t))
    ∧ (s.js = false → (s.getLeft).1 = s.elScrollLeft) := by
  constructor
  · intro hjs
    refine ⟨?_, ?_, ?_, ?_⟩ <;>
      simp [ScrollView.getLeft, ScrollView.setLeft, hjs]
  · intro hjs
    simp [ScrollView.getLeft, hjs]

/-- Witness for C9 at a concrete input: a js-mode scroll view whose
horizontal offset was set to 50 still reports getLeft = 0. -/
theorem jsMode_getLeft_zero_witness :
    ((({ js := true, t := 7 } : ScrollView).getLeft).1 = 0
      ∧ ((({ js := true, t := 7 } : ScrollView).setLeft 50).getLeft).1 = 0
      ∧ (({ js := true, t := 7 } : ScrollView).setLeft 50).l = 50
      ∧ (({ js := true, t := 7 } : ScrollView).setLeft 50).elTransform
          = some (-50, -({ js := true, t := 7 } : ScrollView).t)) :=
  (jsMode_getLeft_zero { js := true, t := 7 } 50).1 rfl

/-! ## Synthetic-scroll deceleration loop (jsScrollDecelerate) -/

/-- DECELERATION_FRICTION constant of scroll-view (0.97). -/
def DECELERATION_FRICTION : ℚ := 97 / 100

/-- MIN_VELOCITY_CONTINUE_DECELERATION constant of scroll-view
(0.12). -/
def MIN_VELOCITY_CONTINUE_DECELERATION : ℚ := 12 / 100

/-- State touched by the jsScrollDecelerate loop: the offset _t, the
event velocityY, and the local max (scrollHeight - offsetHeight +
contentTop + contentBottom, read once per interaction). -/
structure JsScroll where
  t : ℚ
  velocityY : ℚ
  maxScroll : ℚ
deriving Repr, DecidableEq

/-- One frame of jsScrollDecelerate: multiply the velocity by the
friction constant, add it to the offset, clamp the offset to
[0, maxScroll]. -/
def jsScrollFrame (s : JsScroll) : JsScroll :=
  let v := s.velocityY * DECELERATION_FRICTION
  let t := min (max (s.t + v) 0) s.maxScroll
  { s with velocityY := v, t := t }

/-- The jsScrollDecelerate loop with an explicit frame budget: a frame
runs only when the velocity is non-zero (the source guards on the
truthiness of ev.velocityY); after the frame, the loop schedules the
next frame while the offset is strictly inside (0, maxScroll) and the
velocity magnitude exceeds the minimum, and otherwise stops scrolling,
zeroes the velocity and emits scrollEnd (the returned flag). -/
def jsScrollDecelerate : Nat → JsScroll → JsScroll × Bool
  | 0, s => (s, false)
  | n + 1, s =>
    if s.velocityY = 0 then (s, false)
    else
      let s1 := jsScrollFrame s
      if 0 < s1.t ∧ s1.t < s1.maxScroll
          ∧ |s1.velocityY| > MIN_VELOCITY_CONTINUE_DECELERATION then
        jsScrollDecelerate n s1
      else
        ({ s1 with velocityY := 0 }, true)

/-- Lemma: enough fuel makes the loop reach its scroll-end branch, by
induction on the number of frames needed to decay the velocity below
the continuation minimum. -/
theorem jsScrollDecelerate_term (n : Nat) :
    ∀ s : JsScroll, s.velocityY ≠ 0 →
      |s.velocityY| * (97 / 100) ^ (n + 1) ≤ 12 / 100 →
      (jsScrollDecelerate (n + 1) s).2 = true := by
  induction n with
  | zero =>
    intro s hv hb
    unfold jsScrollDecelerate
    rw [if_neg hv]
    dsimp only
    rw [if_neg ?hc]
    case hc =>
      rintro ⟨-, -, hgt⟩
      rw [show (jsScrollFrame s).velocityY
          = s.velocityY * DECELERATION_FRICTION from rfl,
        abs_mul] at hgt
      unfold DECELERATION_FRICTION MIN_VELOCITY_CONTINUE_DECELERATION at hgt
      rw [pow_one] at hb
      rw [abs_of_pos (by norm_num : (0:ℚ) < 97 / 100)] at hgt
      linarith
  | succ n ih =>
    intro s hv hb
    unfold jsScrollDecelerate
    rw [if_neg hv]
    dsimp only
    by_cases hc : 0 < (jsScrollFrame s).t
        ∧ (jsScrollFrame s).t < (jsScrollFrame s).maxScroll
        ∧ |(jsScrollFrame s).velocityY| > MIN_VELOCITY_CONTINUE_DECELERATION
    · rw [if_pos hc]
      apply ih
      · intro h0
        rw [h0] at hc
        have := hc.2.2
        unfold MIN_VELOCITY_CONTINUE_DECELERATION at this
        simp at this
        linarith
      · rw [show (jsScrollFrame s).velocityY
            = s.velocityY * DECELERATION_FRICTION from rfl, abs_mul]
        unfold DECELERATION_FRICTION
        rw [abs_of_pos (by norm_num : (0:ℚ) < 97 / 100)]
        calc |s.velocityY| * (97 / 100) * (97 / 100) ^ (n + 1)
            = |s.velocityY| * (97 / 100) ^ (n + 1 + 1) := by ring
          _ ≤ 12 / 100 := hb
    · rw [if_neg hc]

/-! ## Claim C3: deceleration friction, clamping and termination -/

/-- Claim C3: every frame of the synthetic-scroll deceleration loop
multiplies the vertical velocity by 0.97 and keeps the offset clamped
to [0, maxScroll]; whenever the post-frame velocity magnitude is below
0.12 or the post-frame offset sits at either boundary the loop stops on
that frame and emits scrollEnd; and for every starting state some
finite number of frames reaches the scrollEnd branch. -/
theorem jsScroll_decelerate_spec (s : JsScroll) (h0 : 0 ≤ s.maxScroll)
    (hv : s.velocityY ≠ 0) :
    ((jsScrollFrame s).velocityY = s.velocityY * (97 / 100))
    ∧ (0 ≤ (jsScrollFrame s).t ∧ (jsScrollFrame s).t ≤ s.maxScroll)
    ∧ (∀ n, |(jsScrollFrame s).velocityY| < 12 / 100
        ∨ (jsScrollFrame s).t = 0
        ∨ (jsScrollFrame s).t = s.maxScroll →
        jsScrollDecelerate (n + 1) s
          = ({ jsScrollFrame s with velocityY := 0 }, true))
    ∧ (∃ n, (jsScrollDecelerate n s).2 = true) := by
  refine ⟨rfl, ⟨le_min (le_max_right _ _) h0, min_le_right _ _⟩, ?_, ?_⟩
  · intro n h
    unfold jsScrollDecelerate
    rw [if_neg hv]
    dsimp only
    rw [if_neg ?hcond]
    case hcond =>
      rintro ⟨ht0, htm, hgt⟩
      unfold MIN_VELOCITY_CONTINUE_DECELERATION at hgt
      rcases h with h | h | h
      · linarith
      · rw [h] at ht0
        exact lt_irrefl 0 ht0
      · rw [show (jsScrollFrame s).maxScroll = s.maxScroll from rfl, ← h]
          at htm
        exact lt_irrefl _ htm
  · obtain ⟨n, hn⟩ := exists_pow_lt_of_lt_one
      (div_pos (by norm_num : (0:ℚ) < 12 / 100) (abs_pos.mpr hv))
      (by norm_num : (97:ℚ) / 100 < 1)
    refine ⟨n + 1, jsScrollDecelerate_term n s hv ?_⟩
    have h1 : |s.velocityY| * (97 / 100) ^ n < 12 / 100 := by
      rw [lt_div_iff₀ (abs_pos.mpr hv)] at hn
      linarith [hn]
    have h2 : ((97:ℚ) / 100) ^ (n + 1) ≤ (97 / 100) ^ n :=
      pow_le_pow_of_le_one (by norm_num) (by norm_num) (Nat.le_succ n)
    have h3 : |s.velocityY| * (97 / 100) ^ (n + 1)
        ≤ |s.velocityY| * (97 / 100) ^ n :=
      mul_le_mul_of_nonneg_left h2 (abs_nonneg _)
    linarith

/-- Witness for C3 at a concrete input: offset 50 in [0, 100] with
velocity 10. -/
theorem jsScroll_decelerate_spec_witness :
    ((jsScrollFrame { t := 50, velocityY := 10, maxScroll := 100 }).velocityY
      = 10 * (97 / 100))
    ∧ (0 ≤ (jsScrollFrame
          { t := 50, velocityY := 10, maxScroll := 100 }).t
        ∧ (jsScrollFrame { t := 50, velocityY := 10, maxScroll := 100 }).t
          ≤ 100)
    ∧ (∃ n, (jsScrollDecelerate n
        { t := 50, velocityY := 10, maxScroll := 100 }).2 = true) := by
  have h := jsScroll_decelerate_spec
    { t := 50, velocityY := 10, maxScroll := 100 }
    (by norm_num) (by norm_num)
  exact ⟨h.1, h.2.1, h.2.2.2⟩

/-! ## JavaScript number semantics for unguarded divisions -/

/-- JavaScript number values reachable by the embedded arithmetic: a
finite rational, the two infinities, or NaN.  (Negative zero does not
arise with rational payloads.) -/
inductive JSNum where
  | num : ℚ → JSNum
  | posInf : JSNum
  | negInf : JSNum
  | nan : JSNum
deriving Repr, DecidableEq

/-- JavaScript negation. -/
def JSNum.neg : JSNum → JSNum
  | .num a => .num (-a)
  | .posInf => .negInf
  | .negInf => .posInf
  | .nan => .nan

/-- JavaScript addition. -/
def JSNum.add : JSNum → JSNum → JSNum
  | .nan, _ => .nan
  | _, .nan => .nan
  | .posInf, .negInf => .nan
  | .negInf, .posInf => .nan
  | .posInf, _ => .posInf
  | _, .posInf => .posInf
  | .negInf, _ => .negInf
  | _, .negInf => .negInf
  | .num a, .num b => .num (a + b)

/-- JavaScript subtraction. -/
def JSNum.sub (a b : JSNum) : JSNum := a.add b.neg

/-- JavaScript multiplication. -/
def JSNum.mul : JSNum → JSNum → JSNum
  | .nan, _ => .nan
  | _, .nan => .nan
  | .num a, .num b => .num (a * b)
  | .num a, .posInf => if a = 0 then .nan else if 0 < a then .posInf else .negInf
  | .num a, .negInf => if a = 0 then .nan else if 0 < a then .negInf else .posInf
  | .posInf, .num b => if b = 0 then .nan else if 0 < b then .posInf else .negInf
  | .negInf, .num b => if b = 0 then .nan else if 0 < b then .negInf else .posInf
  | .posInf, .posInf => .posInf
  | .posInf, .negInf => .negInf
  | .negInf, .posInf => .negInf
  | .negInf, .negInf => .posInf

/-- JavaScript division: a non-zero finite numerator divided by zero
gives a signed infinity, 0 / 0 gives NaN. -/
def JSNum.div : JSNum → JSNum → JSNum
  | .nan, _ => .nan
  | _, .nan => .nan
  | .num a, .num b =>
    if b = 0 then (if a = 0 then .nan else if 0 < a then .posInf else .negInf)
    else .num (a / b)
  | .num _, .posInf => .num 0
  | .num _, .negInf => .num 0
  | .posInf, .num b => if b < 0 then .negInf else .posInf
  | .negInf, .num b => if b < 0 then .posInf else .negInf
  | _, _ => .nan

/-- JavaScript Math.min of two values: NaN-propagating. -/
def JSNum.minJ : JSNum → JSNum → JSNum
  | .nan, _ => .nan
  | _, .nan => .nan
  | .negInf, _ => .negInf
  | _, .negInf => .negInf
  | .posInf, b => b
  | a, .posInf => a
  | .num a, .num b => .num (min a b)

/-- JavaScript < comparison: any comparison against NaN is false. -/
def JSNum.ltJ : JSNum → JSNum → Bool
  | .nan, _ => false
  | _, .nan => false
  | .negInf, .negInf => false
  | .negInf, _ => true
  | _, .negInf => false
  | .posInf, _ => false
  | .num _, .posInf => true
  | .num a, .num b => decide (a < b)

/-- Finiteness predicate on JavaScript numbers. -/
def JSNum.isFinite : JSNum → Bool
  | .num _ => true
  | _ => false

/-- ItemSliding.getSlidingPercent: divides the open amount by the
width of the side being revealed, guarding only the openAmount = 0
case; the divisions themselves are plain JavaScript divisions. -/
def ItemSliding.getSlidingPercent (s : ItemSliding) : JSNum :=
  if 0 < s.openAmount then
    JSNum.div (.num s.openAmount) (.num s.optsWidthRightSide)
  else if s.openAmount < 0 then
    JSNum.div (.num s.openAmount) (.num s.optsWidthLeftSide)
  else .num 0

/-! ## scrollTo animation step (scroll-view) -/

/-- JavaScript Math.floor on the JSNum domain. -/
def JSNum.floorJ : JSNum → JSNum
  | .num a => .num ((Int.floor a : ℤ) : ℚ)
  | x => x

/-- The frame-attempt budget of scrollTo: duration / 16 + 100. -/
def scrollToMaxAttempts (duration : ℚ) : ℚ := duration / 16 + 100

/-- The environment and state of one invocation of the step closure
inside ScrollView.scrollTo: whether the target element is still
attached, whether the view is still marked as scrolling, the attempts
counter, the budget, and the captured animation parameters. -/
structure ScrollToState where
  elPresent : Bool
  isScrolling : Bool
  attempts : Nat
  maxAttempts : ℚ
  duration : ℚ
  startTime : ℚ
  fromY : ℚ
  fromX : ℚ
  x : ℚ
  y : ℚ
deriving Repr, DecidableEq

/-- Outcome of one step invocation: an uncaught JavaScript exception
(done never fires), a graceful halt with done fired (carrying the
offsets written this frame, if any), or a scheduled next frame. -/
inductive StepOutcome where
  | threw : StepOutcome
  | finished : Option JSNum → Option JSNum → StepOutcome
  | continued : ScrollToState → Option JSNum → Option JSNum → StepOutcome
deriving Repr, DecidableEq

/-- The step closure of ScrollView.scrollTo.  The abort branch fires
when the element is gone, the view is no longer scrolling, or the
attempt budget is exceeded; it then assigns into self._el.style, which
raises a TypeError when the element is null — before done() is reached.
Otherwise the eased fraction is computed with JavaScript arithmetic
(division by a zero duration included), the per-axis offsets are
written, and the loop continues exactly while easedT < 1. -/
def scrollToStep (st : ScrollToState) (timeStamp : ℚ) : StepOutcome :=
  let st1 : ScrollToState := { st with attempts := st.attempts + 1 }
  if st1.elPresent = false ∨ st1.isScrolling = false
      ∨ (st1.attempts : ℚ) > st1.maxAttempts then
    if st1.elPresent then .finished none none else .threw
  else
    let time := JSNum.minJ (.num 1)
      (JSNum.div (.num (timeStamp - st1.startTime)) (.num st1.duration))
    let tm1 := time.sub (.num 1)
    let easedT := ((tm1.mul tm1).mul tm1).add (.num 1)
    let wroteTop := if st1.fromY ≠ st1.y
      then some ((easedT.mul (.num (st1.y - st1.fromY))).add (.num st1.fromY))
      else none
    let wroteLeft := if st1.fromX ≠ st1.x
      then some (JSNum.floorJ
        ((easedT.mul (.num (st1.x - st1.fromX))).add (.num st1.fromX)))
      else none
    if easedT.ltJ (.num 1) then .continued st1 wroteTop wroteLeft
    else .finished wroteTop wroteLeft

/-- Lemma: JavaScript division of two finite values, unfolded. -/
theorem JSNum.div_num_num (a b : ℚ) :
    JSNum.div (.num a) (.num b)
      = (if b = 0
          then (if a = 0 then JSNum.nan
            else if 0 < a then JSNum.posInf else JSNum.negInf)
          else JSNum.num (a / b)) := rfl

/-! ## Claim C4: scrollTo teardown and budget handling (code bug) -/

/-- A scrollTo step environment whose target element was torn down
mid-animation (null element, still marked scrolling, budget not
exceeded). -/
def teardownScrollTo : ScrollToState :=
  { elPresent := false, isScrolling := true, attempts := 3,
    maxAttempts := scrollToMaxAttempts 300, duration := 300,
    startTime := 0, fromY := 50, fromX := 0, x := 0, y := 0 }

/-- A scrollTo step environment that has exhausted its frame-attempt
budget (duration 300 gives a budget of 118.75) with the element still
attached. -/
def budgetScrollTo : ScrollToState :=
  { elPresent := true, isScrolling := true, attempts := 119,
    maxAttempts := scrollToMaxAttempts 300, duration := 300,
    startTime := 0, fromY := 50, fromX := 0, x := 0, y := 0 }

/-- Claim C4 (code bug): when the target element is torn down
mid-animation the abort guard is taken, but the source then assigns
into self._el.style on the null element, so the step throws a TypeError
and the completion signal never fires — contradicting the claim.  The
budget-exceeded abort with the element still present does halt
gracefully, with completion fired and nothing thrown. -/
theorem scrollTo_step_teardown_throws :
    scrollToStep teardownScrollTo 48 = .threw
    ∧ scrollToStep budgetScrollTo 48 = .finished none none := by
  refine ⟨rfl, ?_⟩
  unfold scrollToStep budgetScrollTo scrollToMaxAttempts
  dsimp only
  rw [if_pos ?cond]
  case cond =>
    right; right
    push_cast
    norm_num
  rfl

/-! ## Claim C8: division-by-zero guards (corrected) -/

/-- Predicate: the step outcome is a graceful halt with the completion
signal fired. -/
def StepOutcome.isFinished : StepOutcome → Bool
  | .finished _ _ => true
  | _ => false

/-- Concrete sliding item with a positive open amount and a zero-width
right panel. -/
def zeroWidthSliding : ItemSliding :=
  { sampleSliding with openAmount := 1, optsWidthRightSide := 0 }

/-- Counterexample to C8 as stated: with a zero panel width and a
non-zero open amount, getSlidingPercent performs the division anyway
and returns Infinity — not a finite already-at-rest result, so not
every division by a zero quantity is guarded. -/
theorem getSlidingPercent_zero_width_infinite :
    zeroWidthSliding.getSlidingPercent = JSNum.posInf
    ∧ JSNum.isFinite zeroWidthSliding.getSlidingPercent = false := by
  constructor <;> rfl

/-- A scrollTo step environment for a zero-duration animation on its
first frame (timestamps equal, element attached, budget fresh). -/
def zeroDurationScrollTo : ScrollToState :=
  { elPresent := true, isScrolling := true, attempts := 0,
    maxAttempts := scrollToMaxAttempts 0, duration := 0,
    startTime := 0, fromY := 50, fromX := 0, x := 0, y := 0 }

/-- Lemma: JavaScript subtraction of finite values. -/
theorem JSNum.sub_num_num (a b : ℚ) :
    (JSNum.num a).sub (.num b) = .num (a - b) := by
  show JSNum.num (a + -b) = .num (a - b)
  rw [← sub_eq_add_neg]

/-- Lemma: JavaScript addition of finite values. -/
theorem JSNum.add_num_num (a b : ℚ) :
    (JSNum.num a).add (.num b) = .num (a + b) := rfl

/-- Lemma: JavaScript multiplication of finite values. -/
theorem JSNum.mul_num_num (a b : ℚ) :
    (JSNum.num a).mul (.num b) = .num (a * b) := rfl

/-- Lemma: JavaScript < on finite values. -/
theorem JSNum.ltJ_num_num (a b : ℚ) :
    (JSNum.num a).ltJ (.num b) = decide (a < b) := rfl

/-- Claim C8 amended: only the openAmount = 0 case of getSlidingPercent
is guarded (returning 0); with a zero panel width and a non-zero open
amount the division is unguarded and yields a signed infinity.  A
zero-duration scrollTo divides by the zero duration unguarded as well,
but its first frame still halts with the completion signal fired,
because the eased fraction degenerates to NaN (equal timestamps) or 1
(later timestamps) and the continue comparison easedT < 1 is false for
both. -/
theorem division_guards_amended (s : ItemSliding) (st : ScrollToState)
    (ts : ℚ) :
    (s.openAmount = 0 → s.getSlidingPercent = .num 0)
    ∧ (0 < s.openAmount → s.optsWidthRightSide = 0 →
        s.getSlidingPercent = .posInf)
    ∧ (s.openAmount < 0 → s.optsWidthLeftSide = 0 →
        s.getSlidingPercent = .negInf)
    ∧ (st.elPresent = true → st.isScrolling = true → st.duration = 0 →
        ((st.attempts : ℚ) + 1 ≤ st.maxAttempts) → st.startTime ≤ ts →
        (scrollToStep st ts).isFinished = true) := by
  refine ⟨?_, ?_, ?_, ?_⟩
  · intro h
    unfold ItemSliding.getSlidingPercent
    rw [if_neg (by rw [h]; exact lt_irrefl 0),
      if_neg (by rw [h]; exact lt_irrefl 0)]
  · intro h hw
    unfold ItemSliding.getSlidingPercent
    rw [if_pos h, hw, JSNum.div_num_num, if_pos rfl,
      if_neg (ne_of_gt h), if_pos h]
  · intro h hw
    unfold ItemSliding.getSlidingPercent
    rw [if_neg (not_lt.mpr (le_of_lt h)), if_pos h, hw,
      JSNum.div_num_num, if_pos rfl, if_neg (ne_of_lt h),
      if_neg (not_lt.mpr (le_of_lt h))]
  · intro hel hsc hd hatt hts
    unfold scrollToStep
    dsimp only
    rw [if_neg ?notabort]
    case notabort =>
      rintro (h | h | h)
      · rw [hel] at h
        exact Bool.noConfusion h
      · rw [hsc] at h
        exact Bool.noConfusion h
      · push_cast at h
        linarith
    rcases eq_or_lt_of_le hts with heq | hlt
    · have hz : ts - st.startTime = 0 := by rw [heq]; ring
      rw [hd, hz]
      split
      · next hcond => exact absurd hcond (by decide)
      · rfl
    · have hpos : 0 < ts - st.startTime := by linarith
      rw [hd, JSNum.div_num_num, if_pos rfl, if_neg (ne_of_gt hpos),
        if_pos hpos]
      rw [if_neg ?hcond]
      case hcond =>
        simp only [show (JSNum.num 1).minJ JSNum.posInf = JSNum.num 1
            from rfl,
          JSNum.sub_num_num, JSNum.mul_num_num, JSNum.add_num_num,
          JSNum.ltJ_num_num, decide_eq_true_eq]
        norm_num
      rfl

/-- Witness for the amended C8 at concrete inputs: a closed item
reports percent 0, zero widths yield the two infinities, and a
zero-duration scrollTo finishes on its first frame. -/
theorem division_guards_amended_witness :
    (({ sampleSliding with openAmount := 0 }
        : ItemSliding).getSlidingPercent = .num 0)
    ∧ (zeroWidthSliding.getSlidingPercent = .posInf)
    ∧ (({ sampleSliding with openAmount := -1, optsWidthLeftSide := 0 }
        : ItemSliding).getSlidingPercent = .negInf)
    ∧ ((scrollToStep zeroDurationScrollTo 0).isFinished = true) := by
  have h1 := division_guards_amended
    { sampleSliding with openAmount := 0 } zeroDurationScrollTo 0
  have h2 := division_guards_amended zeroWidthSliding
    zeroDurationScrollTo 0
  have h3 := division_guards_amended
    { sampleSliding with openAmount := -1, optsWidthLeftSide := 0 }
    zeroDurationScrollTo 0
  refine ⟨h1.1 rfl, h2.2.1 (by decide) rfl, h3.2.2.1 (by decide) rfl,
    h1.2.2.2 rfl rfl rfl ?_ le_rfl⟩
  unfold zeroDurationScrollTo scrollToMaxAttempts
  push_cast
  norm_num

/-! ## Pan gesture controller (drag-gesture) -/

/-- Externally observable actions of the pan gesture controller, in
emission order: calls into the gesture-priority delegate (release,
start, capture attempt), the consumer callbacks (onDragStart,
onDragMove, onDragEnd, notCaptured), the recognizer reset
(detector.start) and the pointer-event teardown (pointerEvents.stop). -/
inductive GestureAction where
  | gestureRelease : GestureAction
  | gestureStart : GestureAction
  | captureAttempt : GestureAction
  | dragStart : GestureAction
  | dragMove : GestureAction
  | dragEnd : GestureAction
  | notCaptured : GestureAction
  | detectorStart : GestureAction
  | pointerEventsStop : GestureAction
deriving Repr, DecidableEq

/-- State of a PanGesture controller: the started/captured session
flags, whether a PanRecognizer was constructed (only when the
configured threshold is positive), whether a gesture-priority delegate
(gestute) is attached, and whether the pointer-event listeners were
stopped by an abort. -/
structure PanGesture where
  started : Bool
  captured : Bool
  hasDetector : Bool
  hasGesture : Bool
  eventsStopped : Bool
deriving Repr, DecidableEq

/-- The PanGesture constructor: a recognizer is created exactly when
the configured movement threshold is positive. -/
def mkPanGesture (threshold : ℚ) (hasGesture : Bool) : PanGesture :=
  { started := false, captured := false,
    hasDetector := decide (0 < threshold), hasGesture := hasGesture,
    eventsStopped := false }

/-- PanGesture.tryToCapture: asks the delegate for the capture grant
when one is attached (the capture-arbitration call, whose verdict is
the captureOk oracle); on grant (or with no delegate) fires onDragStart
and sets captured. -/
def PanGesture.tryToCapture (g : PanGesture) (captureOk : Bool) :
    PanGesture × List GestureAction × Bool :=
  if g.hasGesture && !captureOk then
    (g, [.captureAttempt], false)
  else
    ({ g with captured := true },
     (if g.hasGesture then [GestureAction.captureAttempt] else [])
       ++ [.dragStart],
     true)

/-- PanGesture.abort: clears both session flags, releases the
arbitration grant, stops the pointer-event listeners and fires
notCaptured. -/
def PanGesture.abort (g : PanGesture) : PanGesture × List GestureAction :=
  ({ g with started := false, captured := false, eventsStopped := true },
   [.gestureRelease, .pointerEventsStop, .notCaptured])

/-- PanGesture.pointerDown: a no-op while a session is started; aborted
by canStart returning false; otherwise releases and restarts the
delegate (failure of gestute.start() aborts before any session state is
set), starts the session, and with no recognizer attempts an immediate
capture, undoing the session and releasing the grant when that
immediate capture fails.  The oracle arguments stand for the
consumer-overridable canStart verdict and the delegate verdicts.
Returns the new state, the emitted actions and the JavaScript return
value (none models undefined). -/
def PanGesture.pointerDown (g : PanGesture)
    (canStart gestureStartOk captureOk : Bool) :
    PanGesture × List GestureAction × Option Bool :=
  if g.started then (g, [], none)
  else if !canStart then (g, [], some false)
  else
    let evs0 := if g.hasGesture
      then [GestureAction.gestureRelease, GestureAction.gestureStart]
      else []
    if g.hasGesture && !gestureStartOk then (g, evs0, some false)
    else
      let g1 : PanGesture := { g with started := true, captured := false }
      if g1.hasDetector then (g1, evs0 ++ [.detectorStart], some true)
      else
        let r := g1.tryToCapture captureOk
        if r.2.2 then (r.1, evs0 ++ r.2.1, some true)
        else ({ g1 with started := false, captured := false },
              evs0 ++ r.2.1 ++ [.gestureRelease], some false)

/-- PanGesture.pointerMove: while captured just forwards the sample to
onDragMove (through the write-phase debouncer); otherwise feeds the
sample to the recognizer (the detect and pan oracle arguments are the
recognizer verdicts) and, once a non-zero pan direction is reported,
makes one capture attempt, aborting the whole session when it fails. -/
def PanGesture.pointerMove (g : PanGesture) (detect : Bool) (pan : Int)
    (captureOk : Bool) : PanGesture × List GestureAction :=
  if g.captured then (g, [.dragMove])
  else if detect = true ∧ pan ≠ 0 then
    let r := g.tryToCapture captureOk
    if r.2.2 then (r.1, r.2.1)
    else
      let a := r.1.abort
      (a.1, r.2.1 ++ a.2)
  else (g, [])

/-- Modelled from the spec: PointerEvents.stop (ui-event-manager, not
among the provided sources) unregisters the move and up listeners, so
once a session was aborted no further move event is delivered to the
controller within that pointer session. -/
def PanGesture.dispatchMove (g : PanGesture) (detect : Bool) (pan : Int)
    (captureOk : Bool) : PanGesture × List GestureAction :=
  if g.eventsStopped then (g, [])
  else g.pointerMove detect pan captureOk

/-! ## Claim C5: single capture attempt, abort on rejection -/

/-- Claim C5: on a not-yet-captured move whose recognizer verdict is a
detection with non-zero pan direction, the controller makes exactly one
capture-arbitration attempt; when the grant is refused the whole
session is aborted — started and captured cleared, the grant released,
notCaptured fired, the pointer listeners stopped — and, the listeners
being stopped, no further move (hence no further capture attempt)
is delivered in the same pointer session. -/
theorem panMove_capture_failure (g : PanGesture) (pan : Int)
    (hc : g.captured = false) (hg : g.hasGesture = true) (hp : pan ≠ 0) :
    (∀ cok, (g.pointerMove true pan cok).2.count .captureAttempt = 1)
    ∧ (g.pointerMove true pan false).1.started = false
    ∧ (g.pointerMove true pan false).1.captured = false
    ∧ GestureAction.gestureRelease ∈ (g.pointerMove true pan false).2
    ∧ GestureAction.notCaptured ∈ (g.pointerMove true pan false).2
    ∧ (g.pointerMove true pan false).1.eventsStopped = true
    ∧ (∀ d p c, (g.pointerMove true pan false).1.dispatchMove d p c
        = ((g.pointerMove true pan false).1, [])) := by
  have hmove : g.pointerMove true pan false
      = ({ g with started := false, captured := false,
                  eventsStopped := true },
         [.captureAttempt, .gestureRelease, .pointerEventsStop,
          .notCaptured]) := by
    unfold PanGesture.pointerMove PanGesture.tryToCapture PanGesture.abort
    rw [hc]
    simp [hg, hp]
  have hsucc : g.pointerMove true pan true
      = ({ g with captured := true },
         [.captureAttempt, .dragStart]) := by
    unfold PanGesture.pointerMove PanGesture.tryToCapture
    rw [hc]
    simp [hg, hp]
  refine ⟨?_, ?_⟩
  · intro cok
    cases cok
    · rw [hmove]
      rfl
    · rw [hsucc]
      rfl
  rw [hmove]
  refine ⟨rfl, rfl, by simp, by simp, rfl, ?_⟩
  intro d p c
  unfold PanGesture.dispatchMove
  rw [if_pos rfl]

/-- Concrete pan gesture controller: zero threshold (no recognizer),
delegate attached, idle. -/
def samplePan : PanGesture := mkPanGesture 0 true

/-- A started, not-captured session of the sample controller. -/
def samplePanStarted : PanGesture := { samplePan with started := true }

/-- Witness for C5 at a concrete input: a refused capture on a detected
pan of direction 1 aborts the session. -/
theorem panMove_capture_failure_witness :
    (∀ cok, (samplePanStarted.pointerMove true 1 cok).2.count
        .captureAttempt = 1)
    ∧ (samplePanStarted.pointerMove true 1 false).1.started = false
    ∧ (samplePanStarted.pointerMove true 1 false).1.captured = false
    ∧ GestureAction.gestureRelease
        ∈ (samplePanStarted.pointerMove true 1 false).2
    ∧ GestureAction.notCaptured
        ∈ (samplePanStarted.pointerMove true 1 false).2
    ∧ (samplePanStarted.pointerMove true 1 false).1.eventsStopped = true
    ∧ (∀ d p c,
        (samplePanStarted.pointerMove true 1 false).1.dispatchMove d p c
          = ((samplePanStarted.pointerMove true 1 false).1, [])) :=
  panMove_capture_failure samplePanStarted 1 rfl rfl (by decide)

/-! ## Claim C6: pointerDown session start and immediate capture -/

/-- Claim C6: pointerDown is a no-op while a session is started; a
false canStart verdict means no session begins; a non-positive
configured threshold means no recognizer is constructed; and without a
recognizer the controller attempts capture immediately during
pointerDown, undoing the session (both flags cleared, false returned)
when that immediate capture is refused, and entering the captured
session otherwise. -/
theorem panDown_spec (g : PanGesture) (threshold : ℚ)
    (hasG cs gs cok : Bool) :
    (g.started = true → g.pointerDown cs gs cok = (g, [], none))
    ∧ (g.started = false → cs = false →
        g.pointerDown cs gs cok = (g, [], some false))
    ∧ (threshold ≤ 0 → (mkPanGesture threshold hasG).hasDetector = false)
    ∧ (g.started = false → g.hasDetector = false → g.hasGesture = true →
        (GestureAction.captureAttempt ∈ (g.pointerDown true true cok).2.1)
        ∧ ((g.pointerDown true true false).1.started = false
            ∧ (g.pointerDown true true false).1.captured = false
            ∧ (g.pointerDown true true false).2.2 = some false)
        ∧ ((g.pointerDown true true true).1.started = true
            ∧ (g.pointerDown true true true).1.captured = true
            ∧ (g.pointerDown true true true).2.2 = some true)) := by
  refine ⟨?_, ?_, ?_, ?_⟩
  · intro h
    unfold PanGesture.pointerDown
    rw [if_pos h]
  · intro h hcs
    unfold PanGesture.pointerDown
    rw [if_neg (by rw [h]; exact Bool.noConfusion), if_pos (by rw [hcs]; rfl)]
  · intro h
    unfold mkPanGesture
    simp [not_lt.mpr h]
  · intro hs hd hg
    refine ⟨?_, ?_, ?_⟩
    · unfold PanGesture.pointerDown PanGesture.tryToCapture
      rw [hs]
      cases cok <;> simp [hg, hd]
    · unfold PanGesture.pointerDown PanGesture.tryToCapture
      rw [hs]
      simp [hg, hd]
    · unfold PanGesture.pointerDown PanGesture.tryToCapture
      rw [hs]
      simp [hg, hd]

/-- Witness for C6 at concrete inputs: the idle zero-threshold sample
controller starts and captures immediately on grant, and undoes the
session on refusal; a started session ignores pointerDown; a false
canStart rejects; threshold 0 builds no recognizer. -/
theorem panDown_spec_witness :
    (samplePanStarted.pointerDown true true true
      = (samplePanStarted, [], none))
    ∧ (samplePan.pointerDown false true true = (samplePan, [], some false))
    ∧ ((mkPanGesture 0 true).hasDetector = false)
    ∧ (GestureAction.captureAttempt
        ∈ (samplePan.pointerDown true true false).2.1)
    ∧ ((samplePan.pointerDown true true false).1.started = false
        ∧ (samplePan.pointerDown true true false).1.captured = false
        ∧ (samplePan.pointerDown true true false).2.2 = some false)
    ∧ ((samplePan.pointerDown true true true).1.started = true
        ∧ (samplePan.pointerDown true true true).1.captured = true
        ∧ (samplePan.pointerDown true true true).2.2 = some true) := by
  have h1 := panDown_spec samplePanStarted 0 true true true true
  have h2 := panDown_spec samplePan 0 true false true true
  have h3 := panDown_spec samplePan 0 true true true false
  exact ⟨h1.1 rfl, h2.2.1 rfl rfl, h2.2.2.1 le_rfl,
    (h3.2.2.2 rfl rfl rfl).1, (h3.2.2.2 rfl rfl rfl).2.1,
    (h3.2.2.2 rfl rfl rfl).2.2⟩
